import Mathlib

/-!
Verification model of `mcp_basic_tools_server.py`.

The heart of the file is a shallow embedding of `execute_bash_command`
(lines 126-224 of the source): the function spawns a shell command as a
process-group leader, waits with a 90 s timeout, and on timeout escalates
through SIGINT, SIGTERM, SIGKILL with 5 s grace waits, always returning a
JSON string with keys `stdout`, `stderr`, `returncode`.

Operating-system effects (the spawned process group, the signals, elapsed
time, the pipe contents) are modelled by an explicit environment record
`ProcEnv` describing how the OS and the spawned process behave during one
invocation.  `execute_bash_command_run` replays the Python control flow over
that environment and records, besides the outcome, the signals actually
sent, the elapsed time, and the final state of the process group.

The three tool adapters `ping_target`, `simple_http_get` and
`check_port_status` are embedded in the same style where the claims need
them.
-/

namespace McpTools

/-- Whitespace test of Python `str.strip()`, restricted to the ASCII
whitespace characters: space, tab, line feed, vertical tab, form feed,
carriage return.  (Python also strips non-ASCII Unicode whitespace, which
never occurs in the strings of this development.) -/
def pyIsSpace (c : Char) : Bool :=
  c = ' ' || c = '\t' || c = '\n' || c = '\x0b' || c = '\x0c' || c = '\r'

/-- Python `s.strip()`: drop leading and trailing whitespace. -/
def pyStrip (s : String) : String :=
  String.mk (((s.toList.dropWhile pyIsSpace).reverse.dropWhile pyIsSpace).reverse)

/-- The idiom `s.strip() if s else ""` used at every return site of
`execute_bash_command` (source lines 159-160, 178-179, 193-194, 207-208);
for a string argument the guard only matters for the empty string. -/
def stripOr (s : String) : String :=
  if s = "" then "" else pyStrip s

/-- Lowercase hex digit. -/
def hexDigit (n : Nat) : Char :=
  if n < 10 then Char.ofNat (48 + n) else Char.ofNat (87 + n)

/-- Four lowercase hex digits, as in the `\uXXXX` escapes of `json.dumps`. -/
def hex4 (n : Nat) : String :=
  String.mk [hexDigit (n / 4096 % 16), hexDigit (n / 256 % 16),
             hexDigit (n / 16 % 16), hexDigit (n % 16)]

/-- Escaping of one character by `json.dumps` (default `ensure_ascii=True`):
backslash, quote and the short control escapes, `\uXXXX` for the remaining
control and non-ASCII characters, surrogate pairs beyond the BMP. -/
def pyJsonEscapeChar (c : Char) : String :=
  if c = '\\' then "\\\\"
  else if c = '"' then "\\\""
  else if c = '\n' then "\\n"
  else if c = '\r' then "\\r"
  else if c = '\t' then "\\t"
  else if c = '\x08' then "\\b"
  else if c = '\x0c' then "\\f"
  else if c.toNat < 32 then "\\u" ++ hex4 c.toNat
  else if c.toNat < 128 then String.mk [c]
  else if c.toNat < 65536 then "\\u" ++ hex4 c.toNat
  else "\\u" ++ hex4 (55296 + (c.toNat - 65536) / 1024)
       ++ "\\u" ++ hex4 (56320 + (c.toNat - 65536) % 1024)

/-- Encoding of a string value by `json.dumps`. -/
def pyJsonStr (s : String) : String :=
  "\"" ++ String.join (s.toList.map pyJsonEscapeChar) ++ "\""

/-- The execution outcome: the dict serialized at every return site of
`execute_bash_command`.  Its keys are inserted in the order `stdout`,
`stderr`, `returncode` at every site (lines 135, 158-162, 177-181, 192-196,
206-210, 224). -/
structure Outcome where
  stdout : String
  stderr : String
  returncode : Int
deriving DecidableEq, Repr

/-- Serialization `json.dumps(response_data)`: dicts serialize in
key-insertion order, so the key order is `stdout`, `stderr`, `returncode`
on every path. -/
def serializeOutcome (o : Outcome) : String :=
  "\x7b\"stdout\": " ++ pyJsonStr o.stdout ++ ", \"stderr\": " ++ pyJsonStr o.stderr
    ++ ", \"returncode\": " ++ toString o.returncode ++ "\x7d"

/-- Source line 137. -/
def timeout_seconds : Nat := 90

/-- Source line 138. -/
def grace_period_seconds : Nat := 5

/-- The signals the ladder can deliver to the process group. -/
inductive Sig
  | sigint
  | sigterm
  | sigkill
deriving DecidableEq, Repr

/-- Behaviour of the operating system and of the spawned process group
during one invocation of `execute_bash_command`.  A `some` fault field means
the corresponding call raises an exception with that message (`str(e)`);
the `exits…` flags say whether the group leader exits within the wait that
guards that stage; the `out…`/`err…`/`rc…` fields are what
`process.communicate()` and `process.returncode` report when that wait
completes.  `rcRun` is a plain `Int` because a `communicate` that returns
without `TimeoutExpired` always leaves `returncode` set; at the ladder rungs
the code re-checks `is not None`, mirrored by the `Option Int` fields. -/
structure ProcEnv where
  spawnFault : Option String
  exitsWithinRun : Bool
  runExitTime : Nat
  outRun : String
  errRun : String
  rcRun : Int
  intFault : Option String
  exitsAfterInt : Bool
  intGraceUsed : Nat
  outInt : String
  errInt : String
  rcInt : Option Int
  termFault : Option String
  exitsAfterTerm : Bool
  termGraceUsed : Nat
  outTerm : String
  errTerm : String
  rcTerm : Option Int
  killFault : Option String
  killReclaimTime : Nat
  outKill : String
  errKill : String
  rcKill : Option Int
  bufOutFault : String
  bufErrFault : String
  othersSpawned : Bool
  othersDieOnInt : Bool
  othersDieOnTerm : Bool
  leaderDiesOnDirectTerm : Bool
deriving DecidableEq, Repr

/-- State of the spawned process group when `execute_bash_command` returns:
whether the group leader is still running, whether it exited but was never
reaped by a wait (a zombie), and whether other group members are still
running. -/
structure PostState where
  leaderAlive : Bool
  leaderZombie : Bool
  othersAlive : Bool
deriving DecidableEq, Repr

/-- Instrumented result of one invocation: the outcome that is serialized,
whether a process was spawned, the group signals delivered in order, the
final process-group state, and the elapsed wall-clock seconds. -/
structure RunResult where
  outcome : Outcome
  spawned : Bool
  signals : List Sig
  post : PostState
  elapsed : Nat
deriving DecidableEq, Repr

/-- Message built by the outer handler at source line 222. -/
def serverFaultMsg (m : String) : String :=
  "An unexpected server-side error occurred during command execution: " ++ m

/-- The `finally` block at source lines 213-219, reached when an exception is
raised inside the inner try (a `killpg` fault at the SIGTERM or SIGKILL
rung): the leader is still alive there, so a direct (non-group) terminate is
sent, then after a one-second sleep a direct kill if `poll()` still reports
it running.  A direct kill leaves the leader dead but never reaped; the
direct signals do not reach the other group members. -/
def finallyCleanup (env : ProcEnv) (othersNow : Bool) : PostState :=
  if env.leaderDiesOnDirectTerm then ⟨false, false, othersNow⟩
  else ⟨false, true, othersNow⟩

/-- The one-second `time.sleep(1)` of the `finally` block. -/
def finallyTime : Nat := 1

/-- Replay of `execute_bash_command` (source lines 126-224) over a process
environment.  Control flow, branch by branch:
empty or whitespace-only command rejected at line 134; `Popen` fault caught
by the outer handler (221-224); normal completion within the 90 s timeout
(157-164); on `TimeoutExpired`, `os.killpg(SIGINT)` (172), grace wait
(176-183); then `os.killpg(SIGTERM)` (188), grace wait (191-198); then
`os.killpg(SIGKILL)` (203) and an unbounded `communicate()` (205-212).
A `killpg` fault at the SIGINT rung happens before the inner try, so no
`finally` cleanup runs; at the SIGTERM/SIGKILL rungs the `finally`
(213-219) runs before the outer handler catches the exception. -/
def execute_bash_command_run (command_string : String) (env : ProcEnv) : RunResult :=
  if command_string = "" ∨ pyStrip command_string = "" then
    { outcome := ⟨"", "Error: Empty command string received.", -1⟩
      spawned := false, signals := [], post := ⟨false, false, false⟩, elapsed := 0 }
  else
    match env.spawnFault with
    | some m =>
      { outcome := ⟨"", serverFaultMsg m, -1⟩
        spawned := false, signals := [], post := ⟨false, false, false⟩, elapsed := 0 }
    | none =>
      if env.exitsWithinRun then
        { outcome := ⟨stripOr env.outRun, stripOr env.errRun, env.rcRun⟩
          spawned := true, signals := []
          post := ⟨false, false, env.othersSpawned⟩
          elapsed := min env.runExitTime timeout_seconds }
      else
        match env.intFault with
        | some m =>
          { outcome := ⟨"", serverFaultMsg m, -1⟩
            spawned := true, signals := []
            post := ⟨true, false, env.othersSpawned⟩
            elapsed := timeout_seconds }
        | none =>
          let othersAfterInt := env.othersSpawned && !env.othersDieOnInt
          if env.exitsAfterInt then
            { outcome := ⟨stripOr env.outInt, stripOr env.errInt, (env.rcInt).getD (-99)⟩
              spawned := true, signals := [Sig.sigint]
              post := ⟨false, false, othersAfterInt⟩
              elapsed := timeout_seconds + min env.intGraceUsed grace_period_seconds }
          else
            match env.termFault with
            | some m =>
              { outcome := ⟨"", serverFaultMsg m, -1⟩
                spawned := true, signals := [Sig.sigint]
                post := finallyCleanup env othersAfterInt
                elapsed := timeout_seconds + grace_period_seconds + finallyTime }
            | none =>
              let othersAfterTerm := othersAfterInt && !env.othersDieOnTerm
              if env.exitsAfterTerm then
                { outcome := ⟨stripOr env.outTerm, stripOr env.errTerm, (env.rcTerm).getD (-98)⟩
                  spawned := true, signals := [Sig.sigint, Sig.sigterm]
                  post := ⟨false, false, othersAfterTerm⟩
                  elapsed := timeout_seconds + grace_period_seconds
                             + min env.termGraceUsed grace_period_seconds }
              else
                match env.killFault with
                | some m =>
                  { outcome := ⟨"", serverFaultMsg m, -1⟩
                    spawned := true, signals := [Sig.sigint, Sig.sigterm]
                    post := finallyCleanup env othersAfterTerm
                    elapsed := timeout_seconds + 2 * grace_period_seconds + finallyTime }
                | none =>
                  { outcome := ⟨stripOr env.outKill, stripOr env.errKill, (env.rcKill).getD (-97)⟩
                    spawned := true, signals := [Sig.sigint, Sig.sigterm, Sig.sigkill]
                    post := ⟨false, false, false⟩
                    elapsed := timeout_seconds + 2 * grace_period_seconds
                               + env.killReclaimTime }

/-- The string `execute_bash_command` actually returns: every return site is
`json.dumps` of the response dict built on that path. -/
def execute_bash_command (command_string : String) (env : ProcEnv) : String :=
  serializeOutcome (execute_bash_command_run command_string env).outcome

/-- The fault raised and caught on the path the invocation actually takes,
if any: the `Popen` fault, or the `killpg` fault of the first rung reached
whose signal delivery fails.  Mirrors the path selection of
`execute_bash_command_run`. -/
def pathFault (command_string : String) (env : ProcEnv) : Option String :=
  if command_string = "" ∨ pyStrip command_string = "" then none
  else
    match env.spawnFault with
    | some m => some m
    | none =>
      if env.exitsWithinRun then none
      else
        match env.intFault with
        | some m => some m
        | none =>
          if env.exitsAfterInt then none
          else
            match env.termFault with
            | some m => some m
            | none =>
              if env.exitsAfterTerm then none
              else env.killFault

/-- The stdout/stderr contents the process group had produced by the moment
the invocation returns, on the path actually taken: what `communicate`
reports on the completion paths, and the `bufOutFault`/`bufErrFault`
contents sitting in the pipes when a fault aborts the ladder. -/
def bufferedAtExit (command_string : String) (env : ProcEnv) : String × String :=
  if command_string = "" ∨ pyStrip command_string = "" then ("", "")
  else
    match env.spawnFault with
    | some _ => ("", "")
    | none =>
      if env.exitsWithinRun then (env.outRun, env.errRun)
      else
        match env.intFault with
        | some _ => (env.bufOutFault, env.bufErrFault)
        | none =>
          if env.exitsAfterInt then (env.outInt, env.errInt)
          else
            match env.termFault with
            | some _ => (env.bufOutFault, env.bufErrFault)
            | none =>
              if env.exitsAfterTerm then (env.outTerm, env.errTerm)
              else
                match env.killFault with
                | some _ => (env.bufOutFault, env.bufErrFault)
                | none => (env.outKill, env.errKill)

/-- Count normalization of `ping_target` (source lines 32-33): the count is
reset to 2 unless it already lies in 1..5.  (`int(count)` on the `int`
argument never raises, so the `ValueError` arm is dead.) -/
def pingCountUsed (count : Int) : Int :=
  if 1 ≤ count ∧ count ≤ 5 then count else 2

/-- Default of the `count` parameter of `ping_target` (source line 18). -/
def ping_target_default_count : Int := 2

/-- The argv built at source line 36 from the normalized count. -/
def ping_command (target_host : String) (count : Int) : List String :=
  ["ping", "-c", toString (pingCountUsed count), "-W", "3", target_host]

/-- Substring containment on character lists: Python `needle in hay`. -/
def charsContain (needle : List Char) : List Char → Bool
  | [] => needle.isEmpty
  | c :: t => needle.isPrefixOf (c :: t) || charsContain needle t

/-- Python `needle in hay` on strings. -/
def strContains (hay needle : String) : Bool :=
  charsContain needle.toList hay.toList

/-- Python `s.startswith(p)`. -/
def strStartsWith (s p : String) : Bool :=
  p.toList.isPrefixOf s.toList

/-- Python `s.lower()` (ASCII letters; sufficient for the media-type test). -/
def strLower (s : String) : String :=
  String.mk (s.toList.map Char.toLower)

/-- The textual-content test at source line 70: whether the lowercased
content type contains the substring text or the substring json. -/
def isTextualContentType (content_type : String) : Bool :=
  strContains (strLower content_type) "text" || strContains (strLower content_type) "json"

/-- Python `s[:n]`. -/
def strTake (s : String) (n : Nat) : String :=
  String.mk (s.toList.take n)

/-- What a completed HTTP GET reports back to `simple_http_get`:
`response.status_code`, `response.reason`, the `Content-Type` header when
present, and `response.text`. -/
structure HttpResponse where
  status_code : Int
  reason : String
  content_type : Option String
  text : String
deriving DecidableEq, Repr

/-- The snippet expression at source line 70: the first 500 characters of
the body plus an ellipsis marker when truncated, for textual content types;
the fixed binary marker otherwise. -/
def content_snippet (content_type : String) (text : String) : String :=
  if isTextualContentType content_type then
    strTake text 500 ++ (if 500 < text.length then "..." else "")
  else "[Binary content]"

/-- Single-quoted interpolation, as in the f-strings of the source. -/
def quoted (s : String) : String := "\x27" ++ s ++ "\x27"

/-- Behaviour of the one `requests.get` call of `simple_http_get`: it either
completes with a response or raises one of the exceptions the source
catches (lines 79-82). -/
inductive HttpEnv
  | success (response : HttpResponse)
  | timeoutExc
  | connectionExc
  | requestExc (m : String)
  | otherExc (m : String)
deriving DecidableEq, Repr

/-- Replay of `simple_http_get` (source lines 52-82): scheme validation,
then the formatted success report of lines 71-76, or the descriptive error
string of the matching handler. -/
def simple_http_get (url : String) (env : HttpEnv) : String :=
  if ¬(strStartsWith url "http://" || strStartsWith url "https://") then
    "Error: Invalid URL. Must start with http:// or https://"
  else
    match env with
    | HttpEnv.success r =>
      let content_type := r.content_type.getD "N/A"
      "--- HTTP GET Response from " ++ url ++ " ---\n"
        ++ "Status: " ++ toString r.status_code ++ " " ++ r.reason ++ "\n"
        ++ "Content-Type: " ++ content_type ++ "\n"
        ++ "Content Snippet (first 500 chars):\n" ++ content_snippet content_type r.text
    | HttpEnv.timeoutExc => "Error: HTTP GET to " ++ quoted url ++ " timed out."
    | HttpEnv.connectionExc => "Error: Could not connect to " ++ quoted url ++ "."
    | HttpEnv.requestExc m => "HTTP GET error for " ++ quoted url ++ ": " ++ m
    | HttpEnv.otherExc m => "Unexpected GET error for " ++ quoted url ++ ": " ++ m

/-- Behaviour of `sock.connect_ex` in `check_port_status`: an error code, or
one of the exceptions the source catches (lines 110-112). -/
inductive ConnectOutcome
  | code (n : Int)
  | timeoutExc
  | gaiErr
  | otherExc (m : String)
deriving DecidableEq, Repr

/-- Behaviour of the socket layer for one `check_port_status` call:
`socket.socket` may itself raise (then no socket exists), otherwise the
connection attempt behaves as `connect`. -/
structure SockEnv where
  createFault : Option String
  connect : ConnectOutcome
deriving DecidableEq, Repr

/-- Instrumented result of `check_port_status`: the returned message,
whether a socket was opened, and whether the `finally` block closed it
before returning. -/
structure SockTrace where
  message : String
  opened : Bool
  closedOnExit : Bool
deriving DecidableEq, Repr

/-- Replay of `check_port_status` (source lines 85-114): port-range
validation (no socket is created for an invalid port); then the socket is
created inside the try, every outcome of `connect_ex` - error code, timeout,
resolution failure, unexpected exception - returns through the `finally`
block, which closes the socket whenever one exists. -/
def check_port_status (target_host : String) (port : Int) (env : SockEnv) : SockTrace :=
  if ¬(1 ≤ port ∧ port ≤ 65535) then
    ⟨"Error: Invalid port: " ++ toString port ++ ".", false, false⟩
  else
    match env.createFault with
    | some m =>
      ⟨"Port check error for " ++ toString port ++ " on " ++ quoted target_host
        ++ ": " ++ m, false, false⟩
    | none =>
      let msg :=
        match env.connect with
        | ConnectOutcome.code n =>
          "Port " ++ toString port ++ " on " ++ quoted target_host ++ " is "
            ++ (if n = 0 then "open"
                else "closed/filtered (code: " ++ toString n ++ ")") ++ "."
        | ConnectOutcome.timeoutExc =>
          "Port " ++ toString port ++ " on " ++ quoted target_host ++ " filtered (timeout)."
        | ConnectOutcome.gaiErr =>
          "Error: Cannot resolve hostname " ++ quoted target_host ++ "."
        | ConnectOutcome.otherExc m =>
          "Port check error for " ++ toString port ++ " on " ++ quoted target_host
            ++ ": " ++ m
      ⟨msg, true, true⟩

/-- Baseline environment: a clean spawn, immediate exit with code 0, empty
output, no faults, no surviving descendants. -/
def env0 : ProcEnv where
  spawnFault := none
  exitsWithinRun := true
  runExitTime := 0
  outRun := ""
  errRun := ""
  rcRun := 0
  intFault := none
  exitsAfterInt := true
  intGraceUsed := 0
  outInt := ""
  errInt := ""
  rcInt := none
  termFault := none
  exitsAfterTerm := true
  termGraceUsed := 0
  outTerm := ""
  errTerm := ""
  rcTerm := none
  killFault := none
  killReclaimTime := 0
  outKill := ""
  errKill := ""
  rcKill := none
  bufOutFault := ""
  bufErrFault := ""
  othersSpawned := false
  othersDieOnInt := true
  othersDieOnTerm := true
  leaderDiesOnDirectTerm := true

/-- Environment of a process that ignores SIGINT and SIGTERM but is killed
by SIGKILL: the ladder runs all three rungs. -/
def envKillRung : ProcEnv :=
  { env0 with exitsWithinRun := false, exitsAfterInt := false, exitsAfterTerm := false }

/-- C3: an empty or whitespace-only command string yields exactly the
Outcome with empty stdout, the fixed error message and exit code -1, and
spawns no process: no signals are sent and no process-group state exists. -/
theorem empty_command_rejected (command_string : String) (env : ProcEnv)
    (h : command_string = "" ∨ pyStrip command_string = "") :
    execute_bash_command_run command_string env =
      { outcome := ⟨"", "Error: Empty command string received.", -1⟩
        spawned := false, signals := [], post := ⟨false, false, false⟩
        elapsed := 0 } := by
  unfold execute_bash_command_run
  rw [if_pos h]

/-- Witness for C3 at the whitespace-only command made of a space, a tab
and a space. -/
theorem empty_command_rejected_witness :
    execute_bash_command_run " \t " env0 =
      { outcome := ⟨"", "Error: Empty command string received.", -1⟩
        spawned := false, signals := [], post := ⟨false, false, false⟩
        elapsed := 0 } :=
  empty_command_rejected " \t " env0 (Or.inr (by decide))

/-- C7: on every input, the returned value is the string serialization of a
record with exactly the keys stdout, stderr, returncode, in that fixed
order, whose values are JSON-encoded strings for the first two and an
integer literal for the third. -/
theorem serialized_record_shape (command_string : String) (env : ProcEnv) :
    ∃ o : Outcome, execute_bash_command command_string env =
      "\x7b\"stdout\": " ++ pyJsonStr o.stdout ++ ", \"stderr\": " ++ pyJsonStr o.stderr
        ++ ", \"returncode\": " ++ toString o.returncode ++ "\x7d" :=
  ⟨(execute_bash_command_run command_string env).outcome, rfl⟩

/-- C8: the ping count actually used always lies in 1..5; an in-range count
is kept, any out-of-range count is replaced by the default 2, and the
normalized count is exactly what is spliced into the ping argv. -/
theorem ping_count_clamped (target_host : String) (count : Int) :
    1 ≤ pingCountUsed count ∧ pingCountUsed count ≤ 5 ∧
    ((1 ≤ count ∧ count ≤ 5) → pingCountUsed count = count) ∧
    (¬(1 ≤ count ∧ count ≤ 5) → pingCountUsed count = ping_target_default_count) ∧
    ping_command target_host count
      = ["ping", "-c", toString (pingCountUsed count), "-W", "3", target_host] := by
  have h1 : 1 ≤ pingCountUsed count ∧ pingCountUsed count ≤ 5 := by
    unfold pingCountUsed; split <;> omega
  refine ⟨h1.1, h1.2, ?_, ?_, rfl⟩
  · intro h; unfold pingCountUsed; rw [if_pos h]
  · intro h; unfold pingCountUsed ping_target_default_count; rw [if_neg h]

/-- Witness for C8 at the out-of-range count 99. -/
theorem ping_count_clamped_witness :
    1 ≤ pingCountUsed 99 ∧ pingCountUsed 99 ≤ 5 ∧
    pingCountUsed 99 = ping_target_default_count := by
  have h := ping_count_clamped "localhost" 99
  exact ⟨h.1, h.2.1, h.2.2.2.1 (by decide)⟩

/-- C10: every return path of check_port_status on which a socket was opened
closes that socket in the finally block before returning. -/
theorem port_check_socket_closed (target_host : String) (port : Int) (env : SockEnv)
    (h : (check_port_status target_host port env).opened = true) :
    (check_port_status target_host port env).closedOnExit = true := by
  unfold check_port_status at h ⊢
  split at h
  · simp at h
  · split at h <;> simp_all

/-- Witness for C10: a successful open-port probe of localhost:80. -/
theorem port_check_socket_closed_witness :
    (check_port_status "localhost" 80 ⟨none, ConnectOutcome.code 0⟩).closedOnExit = true :=
  port_check_socket_closed "localhost" 80 ⟨none, ConnectOutcome.code 0⟩ rfl

/-- C1: when the 90 s timeout elapses without the process exiting and no
internal fault occurs, the runner escalates through the forward-only ladder
SIGINT, then SIGTERM, then SIGKILL - the recorded signal sequence is
exactly one of [SIGINT], [SIGINT, SIGTERM], [SIGINT, SIGTERM, SIGKILL], so
each rung is delivered at most once, in order, never retried - and the rung
at which the leader exits fixes the exit code: the real code when
available, else -99 after SIGINT, -98 after SIGTERM, -97 after SIGKILL. -/
theorem escalation_ladder (command_string : String) (env : ProcEnv)
    (hne : ¬(command_string = "" ∨ pyStrip command_string = ""))
    (hspawn : env.spawnFault = none)
    (hrun : env.exitsWithinRun = false)
    (hint : env.intFault = none)
    (hterm : env.termFault = none)
    (hkill : env.killFault = none) :
    (env.exitsAfterInt = true →
      (execute_bash_command_run command_string env).signals = [Sig.sigint] ∧
      (execute_bash_command_run command_string env).outcome.returncode
        = (env.rcInt).getD (-99)) ∧
    (env.exitsAfterInt = false → env.exitsAfterTerm = true →
      (execute_bash_command_run command_string env).signals = [Sig.sigint, Sig.sigterm] ∧
      (execute_bash_command_run command_string env).outcome.returncode
        = (env.rcTerm).getD (-98)) ∧
    (env.exitsAfterInt = false → env.exitsAfterTerm = false →
      (execute_bash_command_run command_string env).signals
        = [Sig.sigint, Sig.sigterm, Sig.sigkill] ∧
      (execute_bash_command_run command_string env).outcome.returncode
        = (env.rcKill).getD (-97)) := by
  refine ⟨fun h1 => ?_, fun h1 h2 => ?_, fun h1 h2 => ?_⟩ <;>
    simp_all [execute_bash_command_run, hne]

/-- Witness for C1: a command that ignores SIGINT and SIGTERM runs all three
rungs and, with no real code captured, ends with the sentinel -97. -/
theorem escalation_ladder_witness :
    (execute_bash_command_run "sleep 999" envKillRung).signals
      = [Sig.sigint, Sig.sigterm, Sig.sigkill] ∧
    (execute_bash_command_run "sleep 999" envKillRung).outcome.returncode = -97 := by
  have h := escalation_ladder "sleep 999" envKillRung (by decide) rfl rfl rfl rfl rfl
  exact ⟨(h.2.2 rfl rfl).1, (h.2.2 rfl rfl).2⟩

/-- C2: whenever the final SIGKILL reclamation wait stays within one grace
period (the epsilon allowance: SIGKILL cannot be blocked), every invocation
returns within T_run + 3 * T_grace seconds of wall clock, and the returned
value is the serialization of a well-formed Outcome carrying all three
fields. -/
theorem bounded_latency (command_string : String) (env : ProcEnv)
    (hreclaim : env.killReclaimTime ≤ grace_period_seconds) :
    (execute_bash_command_run command_string env).elapsed
        ≤ timeout_seconds + 3 * grace_period_seconds ∧
    ∃ o : Outcome, execute_bash_command command_string env = serializeOutcome o := by
  refine ⟨?_, ⟨(execute_bash_command_run command_string env).outcome, rfl⟩⟩
  unfold execute_bash_command_run
  unfold timeout_seconds grace_period_seconds finallyTime at *
  repeat' split
  all_goals simp_all
  all_goals omega

/-- Witness for C2 at a command that exits immediately. -/
theorem bounded_latency_witness :
    (execute_bash_command_run "true" env0).elapsed
        ≤ timeout_seconds + 3 * grace_period_seconds ∧
    ∃ o : Outcome, execute_bash_command "true" env0 = serializeOutcome o :=
  bounded_latency "true" env0 (by decide)

/-- C4: execute_bash_command is total - on every input it returns the
serialization of some Outcome rather than propagating an exception - and
whenever an internal fault is raised on the path actually taken (spawn
failure or a signalling failure at any rung), it is caught and converted
into the Outcome with empty stdout, the fault description as stderr, and
exit code -1. -/
theorem faults_contained (command_string : String) (env : ProcEnv) :
    (∃ o : Outcome, execute_bash_command command_string env = serializeOutcome o) ∧
    (∀ m, pathFault command_string env = some m →
      (execute_bash_command_run command_string env).outcome
        = ⟨"", serverFaultMsg m, -1⟩) := by
  refine ⟨⟨(execute_bash_command_run command_string env).outcome, rfl⟩, fun m hm => ?_⟩
  unfold pathFault at hm
  unfold execute_bash_command_run
  repeat' split at hm
  all_goals simp_all

/-- Environment in which the spawn itself raises. -/
def envSpawnFault : ProcEnv := { env0 with spawnFault := some "spawn failed" }

/-- Witness for C4: a spawn failure is converted into the -1 Outcome. -/
theorem faults_contained_witness :
    (execute_bash_command_run "ls" envSpawnFault).outcome
      = ⟨"", serverFaultMsg "spawn failed", -1⟩ :=
  (faults_contained "ls" envSpawnFault).2 "spawn failed" (by decide)

/-- Claim C5 as stated, over the model: on every exit path of a spawned
process - normal completion, each of the three ladder rungs, and the
internal-fault path - the stdout and stderr already buffered from the
process are whitespace-trimmed and included in the returned Outcome. -/
def buffersCapturedOnAllPaths : Prop :=
  ∀ command_string env,
    (execute_bash_command_run command_string env).spawned = true →
      (execute_bash_command_run command_string env).outcome.stdout
          = stripOr (bufferedAtExit command_string env).1 ∧
      (execute_bash_command_run command_string env).outcome.stderr
          = stripOr (bufferedAtExit command_string env).2

/-- Environment where the SIGINT delivery raises while partial output sits
in the pipes. -/
def envIntFault : ProcEnv :=
  { env0 with
    exitsWithinRun := false
    intFault := some "killpg failed"
    bufOutFault := "partial stdout"
    bufErrFault := "partial stderr" }

/-- C5 counterexample: on the internal-fault path (killpg raising at the
SIGINT rung) the Outcome carries empty stdout although "partial stdout" was
buffered, so buffered output is discarded there and the claim as stated is
false. -/
theorem buffers_discarded_on_fault_path : ¬ buffersCapturedOnAllPaths := by
  intro h
  have hx := (h "sleep 999" envIntFault (by decide)).1
  exact absurd hx (by decide)

/-- C5 amended: on the normal completion path and at each of the three
escalation rungs - that is, on every exit path free of internal faults -
the buffered stdout and stderr are whitespace-trimmed and included in the
returned Outcome. -/
theorem buffers_captured_no_fault (command_string : String) (env : ProcEnv)
    (hint : env.intFault = none) (hterm : env.termFault = none)
    (hkill : env.killFault = none)
    (hsp : (execute_bash_command_run command_string env).spawned = true) :
    (execute_bash_command_run command_string env).outcome.stdout
        = stripOr (bufferedAtExit command_string env).1 ∧
    (execute_bash_command_run command_string env).outcome.stderr
        = stripOr (bufferedAtExit command_string env).2 := by
  unfold execute_bash_command_run bufferedAtExit at *
  repeat' split at hsp
  all_goals simp_all

/-- Environment of a normal completion that wrote to both streams. -/
def envNormalOut : ProcEnv :=
  { env0 with outRun := "  hi  ", errRun := " oops\n", rcRun := 7 }

/-- Witness for amended C5: a normal completion with padded output on both
streams is captured trimmed. -/
theorem buffers_captured_no_fault_witness :
    (execute_bash_command_run "echo hi" envNormalOut).outcome.stdout
        = stripOr (bufferedAtExit "echo hi" envNormalOut).1 ∧
    (execute_bash_command_run "echo hi" envNormalOut).outcome.stderr
        = stripOr (bufferedAtExit "echo hi" envNormalOut).2 :=
  buffers_captured_no_fault "echo hi" envNormalOut rfl rfl rfl (by decide)

/-- Claim C6 as stated, over the model: on every exit path of a spawned
process the whole process group is reclaimed before the Outcome is
returned - the leader neither running nor a zombie, and no other group
member still running. -/
def groupReclaimedOnAllPaths : Prop :=
  ∀ command_string env,
    (execute_bash_command_run command_string env).spawned = true →
      (execute_bash_command_run command_string env).post = ⟨false, false, false⟩

/-- Environment where the SIGINT delivery raises while the group leader is
still alive. -/
def envLeaderLeft : ProcEnv :=
  { env0 with exitsWithinRun := false, intFault := some "no such process" }

/-- Environment of a normal completion whose shell left a background
descendant in the process group. -/
def envNormalBg : ProcEnv := { env0 with othersSpawned := true }

/-- C6 counterexample: on the internal-fault path (killpg raising at the
SIGINT rung) the group leader is still alive when the Outcome is returned,
and on the normal completion path a background group member outlives the
call; the claim as stated is false. -/
theorem group_not_reclaimed_counterexample :
    ¬ groupReclaimedOnAllPaths ∧
    (execute_bash_command_run "sleep 999 &" envNormalBg).post.othersAlive = true := by
  refine ⟨fun h => ?_, by decide⟩
  have hx := h "sleep 999" envLeaderLeft (by decide)
  exact absurd hx (by decide)

/-- C6 amended: when the ladder reaches the SIGKILL rung without internal
faults, the entire process group is reclaimed - leader reaped, no
survivors - before the Outcome is returned; on completion paths short of
SIGKILL the leader is reaped but group descendants may survive, and on
internal-fault paths even the leader may remain. -/
theorem group_reclaimed_after_kill (command_string : String) (env : ProcEnv)
    (hspawn : env.spawnFault = none) (hrun : env.exitsWithinRun = false)
    (hint : env.intFault = none) (hie : env.exitsAfterInt = false)
    (hterm : env.termFault = none) (hte : env.exitsAfterTerm = false)
    (hkill : env.killFault = none) :
    (execute_bash_command_run command_string env).post = ⟨false, false, false⟩ := by
  unfold execute_bash_command_run
  by_cases hc : command_string = "" ∨ pyStrip command_string = "" <;>
    simp [hc, hspawn, hrun, hint, hie, hterm, hte, hkill]

/-- Witness for amended C6: the all-rungs environment ends fully
reclaimed. -/
theorem group_reclaimed_after_kill_witness :
    (execute_bash_command_run "sleep 999" envKillRung).post = ⟨false, false, false⟩ :=
  group_reclaimed_after_kill "sleep 999" envKillRung rfl rfl rfl rfl rfl rfl rfl

/-- C9: on a successful GET against a valid URL, the returned string is the
report carrying the status line, the content type, and a content snippet:
for textual content types the snippet body is at most the first 500
characters of the response text (with an ellipsis marker exactly when the
text was longer), and for non-textual content types it is the fixed
binary-content marker. -/
theorem http_get_success_report (url : String) (r : HttpResponse)
    (hurl : (strStartsWith url "http://" || strStartsWith url "https://") = true) :
    simple_http_get url (HttpEnv.success r)
      = "--- HTTP GET Response from " ++ url ++ " ---\n"
        ++ "Status: " ++ toString r.status_code ++ " " ++ r.reason ++ "\n"
        ++ "Content-Type: " ++ (r.content_type.getD "N/A") ++ "\n"
        ++ "Content Snippet (first 500 chars):\n"
        ++ content_snippet (r.content_type.getD "N/A") r.text ∧
    (isTextualContentType (r.content_type.getD "N/A") = true →
      content_snippet (r.content_type.getD "N/A") r.text
        = strTake r.text 500 ++ (if 500 < r.text.length then "..." else "") ∧
      (strTake r.text 500).length ≤ 500) ∧
    (isTextualContentType (r.content_type.getD "N/A") = false →
      content_snippet (r.content_type.getD "N/A") r.text = "[Binary content]") := by
  refine ⟨?_, fun ht => ⟨?_, ?_⟩, fun ht => ?_⟩
  · unfold simple_http_get
    rw [if_neg (by simp [hurl])]
  · simp [content_snippet, ht]
  · show (r.text.toList.take 500).length ≤ 500
    exact List.length_take_le _ _
  · simp [content_snippet, ht]

/-- Witness for C9 at a textual response to a valid URL. -/
theorem http_get_success_report_witness :
    content_snippet "text/html" "hello"
      = strTake "hello" 500 ++ (if 500 < "hello".length then "..." else "") ∧
    (strTake "hello" 500).length ≤ 500 := by
  have h := http_get_success_report "http://a"
    ⟨200, "OK", some "text/html", "hello"⟩ (by decide)
  exact h.2.1 (by decide)

end McpTools
